import Mathlib

/-!
Shallow embedding of the Open Floor parrot agent (`src/parrot-agent.ts`)
and of the alternate implementation shown in the accompanying tutorial.

The agent receives an envelope with an ordered list of events, answers
utterance events addressed to it by echoing the text with a parrot-emoji
prefix, answers getManifests events with a publishManifests event, and
ignores everything else.  All definitions below are translated from the
TypeScript source; JS semantic details (optional fields, the try/catch
in `_handleParrotUtterance`) are made explicit with `Option` and `Except`.
-/

namespace OpenFloorParrot

/-- The `to` addressing field of an event: both sub-fields are optional
in the wire format (`to` is named `toAddr` here because `to` is a Lean
keyword). -/
structure ToField where
  speakerUri : Option String
  serviceUrl : Option String
deriving Repr, DecidableEq

/-- One token of a text feature; carries a string `value`. -/
structure Token where
  value : String
deriving Repr, DecidableEq

/-- A dialog feature: its `tokens` field may be absent (JS `undefined`). -/
structure Feature where
  tokens : Option (List Token)
deriving Repr, DecidableEq

/-- The dialog payload of an utterance event.  `features` is an optional
map from feature names to features (the source reads it with
`dialogEvent.features?.get('text')`); modelled as an association list. -/
structure DialogEvent where
  features : Option (List (String × Feature))
deriving Repr, DecidableEq

/-- The kinds of inbound event the dispatch loop distinguishes:
utterance events (recognised by `isUtteranceEvent`), getManifests
events, and everything else (carrying its `eventType` string).
An utterance whose dialog payload is `none` models a malformed event
for which accessing `event.dialogEvent.features` throws at runtime. -/
inductive EventPayload where
  | utterance (dialogEvent : Option DialogEvent)
  | getManifests
  | other (eventType : String)
deriving Repr, DecidableEq

/-- An inbound event: optional `to` addressing plus its payload. -/
structure Event where
  toAddr : Option ToField
  payload : EventPayload
deriving Repr, DecidableEq

/-- The sender identity of an envelope: `speakerUri` is required,
`serviceUrl` optional. -/
structure Sender where
  speakerUri : String
  serviceUrl : Option String
deriving Repr, DecidableEq

/-- An inbound envelope: schema version, conversation id, sender and an
ordered sequence of events. -/
structure Envelope where
  schemaVersion : String
  conversationId : String
  sender : Sender
  events : List Event
deriving Repr, DecidableEq

/-- The identification block of a manifest (`createParrotAgent`). -/
structure Identification where
  speakerUri : String
  serviceUrl : String
  organization : String
  conversationalName : String
  synopsis : String
deriving Repr, DecidableEq

/-- One capability entry of a manifest. -/
structure Capability where
  keyphrases : List String
  descriptions : List String
deriving Repr, DecidableEq

/-- The agent manifest: identification plus capabilities. -/
structure Manifest where
  identification : Identification
  capabilities : List Capability
deriving Repr, DecidableEq

/-- Serialisation `manifest.toObject()`; in the embedding the
serialised form is the manifest record itself. -/
def Manifest.toObject (m : Manifest) : Manifest := m

/-- The agent: its identity (`this.speakerUri`, `this.serviceUrl`,
both plain strings supplied at construction) and its immutable
manifest (`this.manifest`). -/
structure Agent where
  speakerUri : String
  serviceUrl : String
  manifest : Manifest
deriving Repr, DecidableEq

/-- Outbound events the agent produces: text utterances built by the
library helper `createTextUtterance` (speakerUri, text, `to`, optional
confidence) and `publishManifests` events carrying a manifest list.
Confidence is a number; it is modelled as a rational since the only
value the source ever uses is the exactly-representable `1.0`. -/
inductive OutEvent where
  | textUtterance (speakerUri : String) (text : String) (toAddr : ToField)
      (confidence : Option ℚ)
  | publishManifests (toAddr : ToField) (servicingManifests : List Manifest)
deriving Repr, DecidableEq

/-- The `to` addressing field of an outbound event. -/
def OutEvent.dest : OutEvent → ToField
  | .textUtterance _ _ t _ => t
  | .publishManifests t _ => t

/-- The outbound envelope built at the end of `processEnvelope`
(the source reuses the same `Envelope` class; the embedding gives the
outbound side its own type because its events are the response events). -/
structure OutEnvelope where
  schemaVersion : String
  conversationId : String
  sender : Sender
  events : List OutEvent
deriving Repr, DecidableEq

/-- The protocol library helper `createTextUtterance({speakerUri, text,
to, confidence?})`. -/
def createTextUtterance (speakerUri text : String) (toAddr : ToField)
    (confidence : Option ℚ) : OutEvent :=
  OutEvent.textUtterance speakerUri text toAddr confidence

/-- The library predicate `isUtteranceEvent`. -/
def isUtteranceEvent (e : Event) : Bool :=
  match e.payload with
  | .utterance _ => true
  | _ => false

/-- Map lookup used for `features.get('text')`. -/
def getFeature : List (String × Feature) → String → Option Feature
  | [], _ => none
  | (k, f) :: rest, key => if k = key then some f else getFeature rest key

/-- Lookup `dialogEvent.features?.get('text')`: `none` if the features
map is absent or has no "text" entry. -/
def textFeatureOf (d : DialogEvent) : Option Feature :=
  d.features.bind fun fs => getFeature fs "text"

/-- The fallback response for an utterance with no usable text
(`"🦜 *chirp* I can only repeat text messages!"`, no confidence). -/
def noTextResponse (agent : Agent) (inSender : Sender) : OutEvent :=
  createTextUtterance agent.speakerUri
    "🦜 *chirp* I can only repeat text messages!"
    ⟨some inSender.speakerUri, none⟩ none

/-- The canned error response produced by the `catch` branch of
`_handleParrotUtterance`. -/
def errorResponse (agent : Agent) (inSender : Sender) : OutEvent :=
  createTextUtterance agent.speakerUri
    "🦜 *confused chirp* Something went wrong while trying to repeat that!"
    ⟨some inSender.speakerUri, none⟩ none

/-- The body of the `try` block of `_handleParrotUtterance`.
`Except Unit` models a thrown exception: when the utterance carries no
dialog payload (`dialogEvent` is `none`), the access
`dialogEvent.features` throws, which is the `.error` case.  Otherwise:
if there is no text feature, no `tokens` field, or zero tokens, the
single guard `!textFeature || !textFeature.tokens ||
textFeature.tokens.length === 0` selects the fallback response, and
otherwise the token values are concatenated with no separator
(`.map(t => t.value).join('')`) and prefixed with `"🦜 "`, with
confidence 1.0. -/
def tryParrot (agent : Agent) (dialogEvent : Option DialogEvent)
    (inSender : Sender) : Except Unit OutEvent :=
  match dialogEvent with
  | none => Except.error ()
  | some d =>
    match textFeatureOf d with
    | none => Except.ok (noTextResponse agent inSender)
    | some f =>
      match f.tokens with
      | none => Except.ok (noTextResponse agent inSender)
      | some toks =>
        if toks.length = 0 then Except.ok (noTextResponse agent inSender)
        else
          Except.ok (createTextUtterance agent.speakerUri
            ("🦜 " ++ String.join (toks.map Token.value))
            ⟨some inSender.speakerUri, none⟩ (some 1))

/-- The method `_handleParrotUtterance(event, inEnvelope)`: runs the `try` block
and converts any thrown error into the canned error response.  The
handler only reads `inEnvelope.sender`, so it takes the sender.  Every
branch returns an event (never `undefined`). -/
def handleParrotUtterance (agent : Agent) (dialogEvent : Option DialogEvent)
    (inSender : Sender) : OutEvent :=
  match tryParrot agent dialogEvent inSender with
  | Except.ok ev => ev
  | Except.error _ => errorResponse agent inSender

/-- The addressed-to-me test of the dispatch loop: `!event.to ||
event.to.speakerUri === this.speakerUri || event.to.serviceUrl ===
this.serviceUrl`. -/
def addressedToMe (agent : Agent) (e : Event) : Bool :=
  match e.toAddr with
  | none => true
  | some t =>
      t.speakerUri == some agent.speakerUri ||
      t.serviceUrl == some agent.serviceUrl

/-- The response events one inbound event contributes (the body of the
`for` loop of `processEnvelope`): an addressed utterance contributes its
handler result (always pushed: the handler never returns `undefined`),
an addressed getManifests event contributes a `publishManifests` event
addressed to the inbound sender carrying the serialised manifest, and
everything else contributes nothing. -/
def processEvent (agent : Agent) (env : Envelope) (e : Event) : List OutEvent :=
  if addressedToMe agent e then
    match e.payload with
    | .utterance d => [handleParrotUtterance agent d env.sender]
    | .getManifests =>
        [OutEvent.publishManifests ⟨some env.sender.speakerUri, none⟩
          [agent.manifest.toObject]]
    | .other _ => []
  else []

/-- Primary implementation of `processEnvelope` (`src/parrot-agent.ts`):
accumulates the response events of every inbound event in input order,
then builds one outbound envelope copying the schema version and
conversation id and using the agent identity as sender. -/
def processEnvelope (agent : Agent) (env : Envelope) : OutEnvelope :=
  { schemaVersion := env.schemaVersion
    conversationId := env.conversationId
    sender := { speakerUri := agent.speakerUri, serviceUrl := some agent.serviceUrl }
    events := env.events.flatMap (processEvent agent env) }

/-- State-passing form of the method call: the body of `processEnvelope`
reads `this.speakerUri`, `this.serviceUrl` and `this.manifest` and
assigns no field of `this`, so the post-state of the agent equals its
pre-state. -/
def processEnvelopeM (agent : Agent) (env : Envelope) : OutEnvelope × Agent :=
  (processEnvelope agent env, agent)

/-- One step of the alternate implementation (tutorial text): addressed
utterance events are handled by appending the handler result to the
already-constructed outbound envelope (`(outEnvelope as any)._events =
[...outEnvelope.events, responseEvent]`); every other event, including
getManifests, leaves the envelope unchanged. -/
def altStep (agent : Agent) (env : Envelope) (out : OutEnvelope) (e : Event) :
    OutEnvelope :=
  if addressedToMe agent e && isUtteranceEvent e then
    match e.payload with
    | .utterance d =>
        { out with events := out.events ++ [handleParrotUtterance agent d env.sender] }
    | _ => out
  else out

/-- Alternate implementation of `processEnvelope`: constructs the
outbound envelope first with an empty event list, then folds the
dispatch loop over the inbound events, mutating the envelope's private
event list. -/
def processEnvelopeAlt (agent : Agent) (env : Envelope) : OutEnvelope :=
  env.events.foldl (altStep agent env)
    { schemaVersion := env.schemaVersion
      conversationId := env.conversationId
      sender := { speakerUri := agent.speakerUri, serviceUrl := some agent.serviceUrl }
      events := [] }

/-- The factory `createParrotAgent` with all options supplied (the
defaulted options of the factory are plain string defaults). -/
def createParrotAgent (speakerUri serviceUrl name organization description : String) :
    Agent :=
  { speakerUri := speakerUri
    serviceUrl := serviceUrl
    manifest :=
      { identification :=
          { speakerUri := speakerUri
            serviceUrl := serviceUrl
            organization := organization
            conversationalName := name
            synopsis := description }
        capabilities :=
          [{ keyphrases := ["echo", "repeat", "parrot", "say"]
             descriptions :=
               ["Echoes back any text message with a parrot emoji",
                "Repeats user input verbatim",
                "Simple text mirroring functionality"] }] } }

/-! Concrete sample data, used to evaluate the definitions on closed
inputs. -/

/-- A concrete agent built by the factory. -/
def demoAgent : Agent :=
  createParrotAgent "tag:demo:parrot" "https://parrot.example" "Parrot Agent"
    "OpenFloor Demo" "A demo parrot"

/-- A concrete inbound sender carrying a serviceUrl. -/
def demoSender : Sender :=
  { speakerUri := "tag:demo:user", serviceUrl := some "https://user.example" }

/-- A text feature with the two tokens of the spec example. -/
def demoTextFeature : Feature :=
  { tokens := some [{ value := "Hello, " }, { value := "world!" }] }

/-- A dialog payload containing the text feature. -/
def demoDialog : DialogEvent :=
  { features := some [("text", demoTextFeature)] }

/-- A broadcast utterance event (no `to` field). -/
def demoUtteranceEvent : Event :=
  { toAddr := none, payload := .utterance (some demoDialog) }

/-- A concrete inbound envelope with one broadcast utterance. -/
def demoEnvelope : Envelope :=
  { schemaVersion := "1.0.0", conversationId := "conv:1"
    sender := demoSender, events := [demoUtteranceEvent] }

/-- The same envelope with zero events. -/
def demoEmptyEnvelope : Envelope := { demoEnvelope with events := [] }

/-- A malformed utterance event: its dialog payload is missing, so text
extraction throws. -/
def demoMalformedEvent : Event := { toAddr := none, payload := .utterance none }

/-- An envelope containing only the malformed utterance. -/
def demoMalformedEnvelope : Envelope := { demoEnvelope with events := [demoMalformedEvent] }

/-- A broadcast getManifests event. -/
def demoGetManifestsEvent : Event := { toAddr := none, payload := .getManifests }

/-- An envelope containing only the getManifests event. -/
def demoGetManifestsEnvelope : Envelope :=
  { demoEnvelope with events := [demoGetManifestsEvent] }

/-- An utterance addressed to a different speaker, with no serviceUrl. -/
def demoUnaddressedEvent : Event :=
  { toAddr := some { speakerUri := some "tag:someone:else", serviceUrl := none }
    payload := .utterance (some demoDialog) }

/-! Helper lemmas shared by the claim theorems. -/

/-- The dispatch step reads the inbound envelope only through its
sender. -/
theorem processEvent_congr (agent : Agent) (env1 env2 : Envelope) (e : Event)
    (h : env1.sender = env2.sender) :
    processEvent agent env1 e = processEvent agent env2 e := by
  unfold processEvent
  rw [h]

/-- Every branch of the utterance handler addresses its response to the
inbound sender by speakerUri only. -/
theorem handle_dest (agent : Agent) (d : Option DialogEvent) (s : Sender) :
    (handleParrotUtterance agent d s).dest = ⟨some s.speakerUri, none⟩ := by
  unfold handleParrotUtterance tryParrot
  cases d with
  | none => rfl
  | some d0 =>
    cases htf : textFeatureOf d0 with
    | none => simp only [htf]; rfl
    | some f =>
      cases ht : f.tokens with
      | none => simp only [htf, ht]; rfl
      | some toks =>
        simp only [htf, ht]
        by_cases hl : toks.length = 0
        · rw [if_pos hl]; rfl
        · rw [if_neg hl]; rfl

/-- Every response event contributed by one inbound event is addressed
to the inbound sender by speakerUri only. -/
theorem processEvent_dest (agent : Agent) (env : Envelope) (e : Event)
    (o : OutEvent) (ho : o ∈ processEvent agent env e) :
    o.dest = ⟨some env.sender.speakerUri, none⟩ := by
  unfold processEvent at ho
  split at ho
  · cases hp : e.payload with
    | utterance d =>
      rw [hp] at ho
      simp at ho
      rw [ho]
      exact handle_dest agent d env.sender
    | getManifests =>
      rw [hp] at ho
      simp at ho
      rw [ho]
      rfl
    | other ty =>
      rw [hp] at ho
      simp at ho
  · simp at ho

/-- The events of the primary outbound envelope are the concatenation,
in input order, of each inbound event's contribution. -/
theorem processEnvelope_events (agent : Agent) (env : Envelope) :
    (processEnvelope agent env).events = env.events.flatMap (processEvent agent env) :=
  rfl

/-- On an utterance event, one step of the alternate implementation
appends exactly the contribution the primary dispatch computes for that
event. -/
theorem altStep_utterance (agent : Agent) (env : Envelope) (out : OutEnvelope)
    (e : Event) (h : isUtteranceEvent e = true) :
    altStep agent env out e =
      { out with events := out.events ++ processEvent agent env e } := by
  unfold altStep processEvent
  cases hp : e.payload with
  | utterance d =>
    by_cases ha : addressedToMe agent e = true
    · simp [ha, isUtteranceEvent, hp]
    · simp [ha, isUtteranceEvent, hp]
  | getManifests => simp [isUtteranceEvent, hp] at h
  | other ty => simp [isUtteranceEvent, hp] at h

/-- Folding the alternate step over a list of utterance events appends
the concatenated primary contributions to the accumulated envelope. -/
theorem alt_foldl (agent : Agent) (env : Envelope) (es : List Event)
    (h : ∀ e ∈ es, isUtteranceEvent e = true) (out : OutEnvelope) :
    es.foldl (altStep agent env) out =
      { out with events := out.events ++ es.flatMap (processEvent agent env) } := by
  induction es generalizing out with
  | nil => simp
  | cons e rest ih =>
    simp only [List.foldl_cons, List.flatMap_cons]
    rw [altStep_utterance agent env out e (h e (List.mem_cons_self e rest))]
    rw [ih (fun x hx => h x (List.mem_cons_of_mem e hx))]
    simp [List.append_assoc]

/-! Claim theorems. -/

/-- C1: for every addressed utterance event whose dialog payload has a
"text" feature with at least one token, the echo transform produces a
response utterance whose text is the prefix "🦜 " followed by the
concatenation of the token values in order with no separator, and whose
confidence is 1.0. -/
theorem parrot_C1_echo (agent : Agent) (inSender : Sender) (d : DialogEvent)
    (f : Feature) (toks : List Token)
    (hf : textFeatureOf d = some f) (ht : f.tokens = some toks)
    (hne : toks ≠ []) :
    handleParrotUtterance agent (some d) inSender =
      OutEvent.textUtterance agent.speakerUri
        ("🦜 " ++ String.join (toks.map Token.value))
        ⟨some inSender.speakerUri, none⟩ (some 1) := by
  have hl : ¬ toks.length = 0 := by simpa using hne
  unfold handleParrotUtterance tryParrot
  simp only [hf, ht]
  rw [if_neg hl]
  rfl

/-- Witness for C1 at the spec example tokens "Hello, " and "world!". -/
theorem parrot_C1_echo_witness :
    handleParrotUtterance demoAgent (some demoDialog) demoSender =
      OutEvent.textUtterance demoAgent.speakerUri
        ("🦜 " ++ String.join ([Token.mk "Hello, ", Token.mk "world!"].map Token.value))
        ⟨some demoSender.speakerUri, none⟩ (some 1) :=
  parrot_C1_echo demoAgent demoSender demoDialog demoTextFeature
    [Token.mk "Hello, ", Token.mk "world!"] rfl rfl (by decide)

/-- C2: an event is treated as addressed to the agent exactly when it
has no addressing field, or its speakerUri equals the agent speakerUri,
or its serviceUrl equals the agent serviceUrl; events not addressed to
the agent contribute no output event; an utterance with the addressing
field entirely absent contributes exactly one response. -/
theorem parrot_C2_addressing :
    (∀ (agent : Agent) (e : Event),
      addressedToMe agent e = true ↔
        e.toAddr = none ∨
        ∃ t, e.toAddr = some t ∧
          (t.speakerUri = some agent.speakerUri ∨
           t.serviceUrl = some agent.serviceUrl)) ∧
    (∀ (agent : Agent) (env : Envelope) (e : Event),
      addressedToMe agent e = false → processEvent agent env e = []) ∧
    (∀ (agent : Agent) (env : Envelope) (e : Event) (d : Option DialogEvent),
      e.toAddr = none → e.payload = .utterance d →
      (processEvent agent env e).length = 1) := by
  refine ⟨?_, ?_, ?_⟩
  · intro agent e
    unfold addressedToMe
    cases e.toAddr with
    | none => simp
    | some t => simp
  · intro agent env e h
    unfold processEvent
    simp [h]
  · intro agent env e d h hp
    have ha : addressedToMe agent e = true := by
      unfold addressedToMe
      rw [h]
    unfold processEvent
    simp [ha, hp]

/-- Witness for C2: the unaddressed utterance yields nothing, the
broadcast utterance yields one response. -/
theorem parrot_C2_addressing_witness :
    processEvent demoAgent demoEnvelope demoUnaddressedEvent = [] ∧
    (processEvent demoAgent demoEnvelope demoUtteranceEvent).length = 1 :=
  ⟨parrot_C2_addressing.2.1 demoAgent demoEnvelope demoUnaddressedEvent (by decide),
   parrot_C2_addressing.2.2 demoAgent demoEnvelope demoUtteranceEvent
     (some demoDialog) rfl rfl⟩

/-- C3: the outbound envelope copies the inbound schema version and
conversation id, its sender is the agent identity, its event sequence
is the order-preserving concatenation of the per-event contributions
(stated as a homomorphism over splitting the inbound event list), and
zero inbound events yield zero outbound events. -/
theorem parrot_C3_envelope (agent : Agent) (env : Envelope) :
    (processEnvelope agent env).schemaVersion = env.schemaVersion ∧
    (processEnvelope agent env).conversationId = env.conversationId ∧
    (processEnvelope agent env).sender =
      { speakerUri := agent.speakerUri, serviceUrl := some agent.serviceUrl } ∧
    (∀ es1 es2 : List Event,
      (processEnvelope agent { env with events := es1 ++ es2 }).events =
        (processEnvelope agent { env with events := es1 }).events ++
        (processEnvelope agent { env with events := es2 }).events) ∧
    (env.events = [] → (processEnvelope agent env).events = []) := by
  have hfun : ∀ (es : List Event),
      processEvent agent { env with events := es } = processEvent agent env :=
    fun es => funext fun e => processEvent_congr agent _ env e rfl
  refine ⟨rfl, rfl, rfl, ?_, ?_⟩
  · intro es1 es2
    simp only [processEnvelope, hfun]
    exact List.flatMap_append es1 es2 (processEvent agent env)
  · intro h
    simp [processEnvelope, h]

/-- Witness for C3 at the envelope with zero events. -/
theorem parrot_C3_envelope_witness :
    (processEnvelope demoAgent demoEmptyEnvelope).events = [] :=
  (parrot_C3_envelope demoAgent demoEmptyEnvelope).2.2.2.2 rfl

/-- C4: every addressed getManifests event contributes exactly one
publishManifests event, addressed to the inbound sender, carrying the
serialised manifest as the single element of servicingManifests. -/
theorem parrot_C4_manifests (agent : Agent) (env : Envelope) (e : Event)
    (haddr : addressedToMe agent e = true) (hk : e.payload = .getManifests) :
    processEvent agent env e =
      [OutEvent.publishManifests ⟨some env.sender.speakerUri, none⟩
        [agent.manifest.toObject]] := by
  unfold processEvent
  simp [haddr, hk]

/-- Witness for C4 at the broadcast getManifests event. -/
theorem parrot_C4_manifests_witness :
    processEvent demoAgent demoGetManifestsEnvelope demoGetManifestsEvent =
      [OutEvent.publishManifests
        ⟨some demoGetManifestsEnvelope.sender.speakerUri, none⟩
        [demoAgent.manifest.toObject]] :=
  parrot_C4_manifests demoAgent demoGetManifestsEnvelope demoGetManifestsEvent rfl rfl

/-- C5: the handler never propagates a failure: either the try block
succeeds and its response is returned, or it throws and the canned
error utterance is returned; consequently an addressed utterance whose
extraction throws still contributes the canned error utterance to the
outbound envelope (totality of `processEnvelope` is by construction:
its result type is an envelope, never an exception). -/
theorem parrot_C5_no_raise :
    (∀ (agent : Agent) (d : Option DialogEvent) (s : Sender),
      (∃ ev, tryParrot agent d s = Except.ok ev ∧
        handleParrotUtterance agent d s = ev) ∨
      (tryParrot agent d s = Except.error () ∧
       handleParrotUtterance agent d s =
         OutEvent.textUtterance agent.speakerUri
           "🦜 *confused chirp* Something went wrong while trying to repeat that!"
           ⟨some s.speakerUri, none⟩ none)) ∧
    (∀ (agent : Agent) (env : Envelope) (e : Event) (d : Option DialogEvent),
      e ∈ env.events → addressedToMe agent e = true → e.payload = .utterance d →
      tryParrot agent d env.sender = Except.error () →
      OutEvent.textUtterance agent.speakerUri
        "🦜 *confused chirp* Something went wrong while trying to repeat that!"
        ⟨some env.sender.speakerUri, none⟩ none ∈
        (processEnvelope agent env).events) := by
  constructor
  · intro agent d s
    cases h : tryParrot agent d s with
    | ok ev =>
      left
      exact ⟨ev, rfl, by unfold handleParrotUtterance; rw [h]⟩
    | error u =>
      right
      cases u
      exact ⟨rfl, by unfold handleParrotUtterance; rw [h]; rfl⟩
  · intro agent env e d he haddr hp herr
    rw [processEnvelope_events]
    apply List.mem_flatMap.mpr
    refine ⟨e, he, ?_⟩
    have hpe : processEvent agent env e =
        [handleParrotUtterance agent d env.sender] := by
      unfold processEvent
      simp [haddr, hp]
    rw [hpe]
    have hh : handleParrotUtterance agent d env.sender =
        OutEvent.textUtterance agent.speakerUri
          "🦜 *confused chirp* Something went wrong while trying to repeat that!"
          ⟨some env.sender.speakerUri, none⟩ none := by
      unfold handleParrotUtterance
      rw [herr]
      rfl
    rw [hh]
    simp

/-- Witness for C5 at the malformed utterance (dialog payload missing,
so the extraction throws). -/
theorem parrot_C5_no_raise_witness :
    OutEvent.textUtterance demoAgent.speakerUri
      "🦜 *confused chirp* Something went wrong while trying to repeat that!"
      ⟨some demoMalformedEnvelope.sender.speakerUri, none⟩ none ∈
      (processEnvelope demoAgent demoMalformedEnvelope).events :=
  parrot_C5_no_raise.2 demoAgent demoMalformedEnvelope demoMalformedEvent none
    (by decide) rfl rfl rfl

/-- C6: for every addressed utterance with no "text" feature, or whose
text feature has no tokens field or zero tokens, the echo transform
produces the fixed fallback utterance addressed to the inbound sender
with no confidence value. -/
theorem parrot_C6_no_text (agent : Agent) (d : DialogEvent) (inSender : Sender)
    (h : textFeatureOf d = none ∨
      ∃ f, textFeatureOf d = some f ∧ (f.tokens = none ∨ f.tokens = some [])) :
    handleParrotUtterance agent (some d) inSender =
      OutEvent.textUtterance agent.speakerUri
        "🦜 *chirp* I can only repeat text messages!"
        ⟨some inSender.speakerUri, none⟩ none := by
  unfold handleParrotUtterance tryParrot
  rcases h with h | ⟨f, hf, ht | ht⟩
  · simp only [h]; rfl
  · simp only [hf, ht]; rfl
  · simp only [hf, ht]; rfl

/-- Witness for C6 at a dialog payload with no features map. -/
theorem parrot_C6_no_text_witness :
    handleParrotUtterance demoAgent (some { features := none }) demoSender =
      OutEvent.textUtterance demoAgent.speakerUri
        "🦜 *chirp* I can only repeat text messages!"
        ⟨some demoSender.speakerUri, none⟩ none :=
  parrot_C6_no_text demoAgent { features := none } demoSender (Or.inl rfl)

/-- C7: every event of the outbound envelope is addressed to the
original sender of the inbound envelope, and to nobody else. -/
theorem parrot_C7_reply_to_sender (agent : Agent) (env : Envelope)
    (o : OutEvent) (ho : o ∈ (processEnvelope agent env).events) :
    o.dest = ⟨some env.sender.speakerUri, none⟩ := by
  rw [processEnvelope_events] at ho
  rcases List.mem_flatMap.mp ho with ⟨e, he, hoe⟩
  exact processEvent_dest agent env e o hoe

/-- Witness for C7 at the echo response of the demo envelope. -/
theorem parrot_C7_reply_to_sender_witness :
    (OutEvent.textUtterance "tag:demo:parrot" "🦜 Hello, world!"
        ⟨some "tag:demo:user", none⟩ (some 1)).dest =
      ⟨some demoEnvelope.sender.speakerUri, none⟩ :=
  parrot_C7_reply_to_sender demoAgent demoEnvelope _ (by decide)

/-- C8: processing is deterministic and leaves the agent unchanged: in
state-passing form the post-state agent equals the pre-state agent, so
a second call with the same envelope returns an outbound envelope with
identical events (indeed an identical envelope). -/
theorem parrot_C8_idempotent (agent : Agent) (env : Envelope) :
    (processEnvelopeM agent env).2 = agent ∧
    (processEnvelopeM (processEnvelopeM agent env).2 env).1.events =
      (processEnvelopeM agent env).1.events ∧
    (processEnvelopeM (processEnvelopeM agent env).2 env).1 =
      (processEnvelopeM agent env).1 :=
  ⟨rfl, rfl, rfl⟩

/-- C9: reply addressing carries only the inbound sender speakerUri;
the inbound sender serviceUrl is never copied into an outbound event,
even when the inbound envelope carries one. -/
theorem parrot_C9_no_serviceUrl (agent : Agent) (env : Envelope) (u : String)
    (_hu : env.sender.serviceUrl = some u) (o : OutEvent)
    (ho : o ∈ (processEnvelope agent env).events) :
    o.dest.speakerUri = some env.sender.speakerUri ∧ o.dest.serviceUrl = none := by
  rw [processEnvelope_events] at ho
  rcases List.mem_flatMap.mp ho with ⟨e, he, hoe⟩
  rw [processEvent_dest agent env e o hoe]
  exact ⟨rfl, rfl⟩

/-- Witness for C9: the demo sender carries a serviceUrl and the echo
response still addresses by speakerUri only. -/
theorem parrot_C9_no_serviceUrl_witness :
    (OutEvent.textUtterance "tag:demo:parrot" "🦜 Hello, world!"
        ⟨some "tag:demo:user", none⟩ (some 1)).dest.speakerUri =
      some demoEnvelope.sender.speakerUri ∧
    (OutEvent.textUtterance "tag:demo:parrot" "🦜 Hello, world!"
        ⟨some "tag:demo:user", none⟩ (some 1)).dest.serviceUrl = none :=
  parrot_C9_no_serviceUrl demoAgent demoEnvelope "https://user.example" rfl _ (by decide)

/-- C10: on envelopes consisting only of utterance events the primary
and the alternate implementation return identical outbound envelopes;
the equivalence does not extend to getManifests events, which only the
primary implementation answers. -/
theorem parrot_C10_refinement :
    (∀ (agent : Agent) (env : Envelope),
      (∀ e ∈ env.events, isUtteranceEvent e = true) →
      processEnvelope agent env = processEnvelopeAlt agent env) ∧
    (processEnvelope demoAgent demoGetManifestsEnvelope).events ≠
      (processEnvelopeAlt demoAgent demoGetManifestsEnvelope).events := by
  constructor
  · intro agent env h
    unfold processEnvelopeAlt
    rw [alt_foldl agent env env.events h]
    simp only [processEnvelope, List.nil_append]
  · decide

/-- Witness for C10 at the all-utterance demo envelope. -/
theorem parrot_C10_refinement_witness :
    processEnvelope demoAgent demoEnvelope = processEnvelopeAlt demoAgent demoEnvelope :=
  parrot_C10_refinement.1 demoAgent demoEnvelope (by decide)

end OpenFloorParrot
